import Mathlib

/-!
Shallow embedding of the LC-3 virtual machine in `src/vm.c`.

The machine word is modelled as `Nat`; every place where C truncates an
`int` expression into a `uint16_t` object is made explicit with `% 65536`
(for arithmetic) or `&&& 0xFFFF` (for bit operations).  The global arrays
`reg` and `memory` are modelled as functions `Nat → Nat`; console input is a
list of pending bytes and console output a list of emitted bytes, so the
side-effecting reads (`getchar`, the keyboard poll in `mem_read`) become
explicit state passing.  Each definition transcribes the C function of the
same name.
-/

namespace LC3

/-- Register indices, from the `enum` in vm.c (`R_R0 = 0`, … `R_COUNT`). -/
def R_R0 : Nat := 0

/-- Register index of R7 (return-address register). -/
def R_R7 : Nat := 7

/-- Register index of the program counter (`R_PC`). -/
def R_PC : Nat := 8

/-- Register index of the condition register (`R_COND`). -/
def R_COND : Nat := 9

/-- Opcode values from the `enum` in vm.c: `OP_BR = 0`. -/
def OP_BR : Nat := 0

/-- Opcode `OP_ADD = 1`. -/
def OP_ADD : Nat := 1

/-- Opcode `OP_LD = 2`. -/
def OP_LD : Nat := 2

/-- Opcode `OP_ST = 3`. -/
def OP_ST : Nat := 3

/-- Opcode `OP_JSR = 4`. -/
def OP_JSR : Nat := 4

/-- Opcode `OP_AND = 5`. -/
def OP_AND : Nat := 5

/-- Opcode `OP_LDR = 6`. -/
def OP_LDR : Nat := 6

/-- Opcode `OP_STR = 7`. -/
def OP_STR : Nat := 7

/-- Opcode `OP_RTI = 8` (unused). -/
def OP_RTI : Nat := 8

/-- Opcode `OP_NOT = 9`. -/
def OP_NOT : Nat := 9

/-- Opcode `OP_LDI = 10`. -/
def OP_LDI : Nat := 10

/-- Opcode `OP_STI = 11`. -/
def OP_STI : Nat := 11

/-- Opcode `OP_JMP = 12`. -/
def OP_JMP : Nat := 12

/-- Opcode `OP_RES = 13` (reserved, unused). -/
def OP_RES : Nat := 13

/-- Opcode `OP_LEA = 14`. -/
def OP_LEA : Nat := 14

/-- Opcode `OP_TRAP = 15`. -/
def OP_TRAP : Nat := 15

/-- Trap vector `TRAP_GETC = 0x20`. -/
def TRAP_GETC : Nat := 0x20

/-- Trap vector `TRAP_OUT = 0x21`. -/
def TRAP_OUT : Nat := 0x21

/-- Trap vector `TRAP_PUTS = 0x22`. -/
def TRAP_PUTS : Nat := 0x22

/-- Trap vector `TRAP_IN = 0x23`. -/
def TRAP_IN : Nat := 0x23

/-- Trap vector `TRAP_PUTSP = 0x24`. -/
def TRAP_PUTSP : Nat := 0x24

/-- Trap vector `TRAP_HALT = 0x25`. -/
def TRAP_HALT : Nat := 0x25

/-- Condition flag `FL_POS = 1 << 0`. -/
def FL_POS : Nat := 1

/-- Condition flag `FL_ZRO = 1 << 1`. -/
def FL_ZRO : Nat := 2

/-- Condition flag `FL_NEG = 1 << 2`. -/
def FL_NEG : Nat := 4

/-- Memory-mapped keyboard status register address: `MR_KBSR = 0xFE00`. -/
def MR_KBSR : Nat := 0xFE00

/-- Memory-mapped keyboard data register address: in vm.c `MR_KBDR = 0xFE00`,
the same address as `MR_KBSR`. -/
def MR_KBDR : Nat := 0xFE00

/-- Number of cells of the memory array: vm.c declares
`uint16_t memory[UINT16_MAX]`, and `UINT16_MAX = 65535`.  Valid indices are
`0 ≤ a < 65535`. -/
def memory_size : Nat := 65535

/-- Whether `address` is an in-bounds index of the C array
`uint16_t memory[UINT16_MAX]`. -/
def mem_index_ok (address : Nat) : Bool := address < memory_size

/-- Machine state: the two global arrays `reg` and `memory` of vm.c, plus the
console collaborator (pending input bytes, emitted output bytes) and the
global `running` flag. -/
structure Machine where
  reg : Nat → Nat
  mem : Nat → Nat
  input : List Nat
  out : List Nat
  running : Bool

/-- Pointwise update of a register file, modelling `reg[i] = v`. -/
def updReg (r : Nat → Nat) (i v : Nat) : Nat → Nat :=
  fun j => if j = i then v else r j

/-- Transcribes `mem_write`: `memory[address] = val` (a plain array store,
no special-casing of any address). -/
def mem_write (m : Nat → Nat) (address val : Nat) : Nat → Nat :=
  fun i => if i = address then val else m i

/-- Transcribes `mem_read`.  `check_key()` is modelled by whether the pending
input list is nonempty; `getchar()` consumes its head.  At `MR_KBSR` the code
stores `1 << 15` at `MR_KBSR` and then the read byte at `MR_KBDR` (the same
address, since both constants are 0xFE00) before returning `memory[address]`.
Returns (value read, new memory, remaining input). -/
def mem_read (mem : Nat → Nat) (input : List Nat) (address : Nat) :
    Nat × (Nat → Nat) × List Nat :=
  if address = MR_KBSR then
    match input with
    | b :: rest =>
        let m2 := mem_write (mem_write mem MR_KBSR (1 <<< 15)) MR_KBDR b
        (m2 address, m2, rest)
    | [] =>
        let m1 := mem_write mem MR_KBSR 0
        (m1 address, m1, input)
  else (mem address, mem, input)

/-- Transcribes `sign_extend(x, bit_count)`: if bit `bit_count - 1` of `x` is
set, OR in `0xFFFF << bit_count` (truncated to 16 bits by the `uint16_t`
assignment). -/
def sign_extend (x : Nat) (bit_count : Nat) : Nat :=
  if ((x >>> (bit_count - 1)) &&& 1) = 1 then
    (x ||| (0xFFFF <<< bit_count)) &&& 0xFFFF
  else x

/-- Transcribes `update_flags(r)`: sets `reg[R_COND]` to `FL_ZRO` if
`reg[r] = 0`, to `FL_NEG` if bit 15 of `reg[r]` is set, else `FL_POS`. -/
def update_flags (reg : Nat → Nat) (r : Nat) : Nat → Nat :=
  if reg r = 0 then updReg reg R_COND FL_ZRO
  else if (reg r) >>> 15 ≠ 0 then updReg reg R_COND FL_NEG
  else updReg reg R_COND FL_POS

/-- Transcribes `add(instr)`: `reg[r0] = reg[r1] + (imm5 or reg[r2])`
(16-bit wraparound), then `update_flags(r0)`. -/
def add (s : Machine) (instr : Nat) : Machine :=
  let r0 := (instr >>> 9) &&& 0x7
  let r1 := (instr >>> 6) &&& 0x7
  let imm_flag := (instr >>> 5) &&& 0x1
  let reg1 :=
    if imm_flag ≠ 0 then
      let imm5 := sign_extend (instr &&& 0x1F) 5
      updReg s.reg r0 ((s.reg r1 + imm5) % 65536)
    else
      let r2 := instr &&& 0x7
      updReg s.reg r0 ((s.reg r1 + s.reg r2) % 65536)
  { s with reg := update_flags reg1 r0 }

/-- Transcribes `and(instr)` exactly as written in vm.c: the body computes
`reg[r0] = reg[r1] + imm5` and `reg[r0] = reg[r1] + reg[r2]` — addition,
identical to `add` — then `update_flags(r0)`. -/
def and (s : Machine) (instr : Nat) : Machine :=
  let r0 := (instr >>> 9) &&& 0x7
  let r1 := (instr >>> 6) &&& 0x7
  let imm_flag := (instr >>> 5) &&& 0x1
  let reg1 :=
    if imm_flag ≠ 0 then
      let imm5 := sign_extend (instr &&& 0x1F) 5
      updReg s.reg r0 ((s.reg r1 + imm5) % 65536)
    else
      let r2 := instr &&& 0x7
      updReg s.reg r0 ((s.reg r1 + s.reg r2) % 65536)
  { s with reg := update_flags reg1 r0 }

/-- Transcribes `not(instr)`: `reg[r0] = ~reg[r1]` (complement of the low 16
bits, as stored into a `uint16_t`), then `update_flags(r0)`. -/
def not (s : Machine) (instr : Nat) : Machine :=
  let r0 := (instr >>> 9) &&& 0x7
  let r1 := (instr >>> 6) &&& 0x7
  { s with reg := update_flags (updReg s.reg r0 ((s.reg r1 &&& 0xFFFF) ^^^ 0xFFFF)) r0 }

/-- Transcribes `br(instr)` exactly as written in vm.c:
`pc_offset = sign_extend(instr * 0x1FF, 9)` — note the multiplication
`instr * 0x1FF`, truncated to 16 bits by the `uint16_t` parameter, not the
mask `instr & 0x1FF` — and `reg[R_PC] += pc_offset` when
`cond_flag & reg[R_COND]` is nonzero. -/
def br (s : Machine) (instr : Nat) : Machine :=
  let pc_offset := sign_extend ((instr * 0x1FF) % 65536) 9
  let cond_flag := (instr >>> 9) &&& 0x7
  if (cond_flag &&& s.reg R_COND) ≠ 0 then
    { s with reg := updReg s.reg R_PC ((s.reg R_PC + pc_offset) % 65536) }
  else s

/-- Transcribes `jmp(instr)`: `reg[R_PC] = reg[r1]`. -/
def jmp (s : Machine) (instr : Nat) : Machine :=
  let r1 := (instr >>> 6) &&& 0x7
  { s with reg := updReg s.reg R_PC (s.reg r1) }

/-- Transcribes `jsr(instr)`: `reg[R_R7] = reg[R_PC]`, then either
`reg[R_PC] += sign_extend(instr & 0x7FF, 11)` (long flag set) or
`reg[R_PC] = reg[r1]`. -/
def jsr (s : Machine) (instr : Nat) : Machine :=
  let long_flag := (instr >>> 11) &&& 1
  let reg1 := updReg s.reg R_R7 (s.reg R_PC)
  if long_flag ≠ 0 then
    let long_pc_offset := sign_extend (instr &&& 0x7FF) 11
    { s with reg := updReg reg1 R_PC ((reg1 R_PC + long_pc_offset) % 65536) }
  else
    let r1 := (instr >>> 6) &&& 0x7
    { s with reg := updReg reg1 R_PC (reg1 r1) }

/-- Transcribes `ld(instr)`: `reg[r0] = mem_read(reg[R_PC] + pc_offset)`
(with the keyboard-poll side effects of `mem_read`), then `update_flags`. -/
def ld (s : Machine) (instr : Nat) : Machine :=
  let r0 := (instr >>> 9) &&& 0x7
  let pc_offset := sign_extend (instr &&& 0x1FF) 9
  let r := mem_read s.mem s.input ((s.reg R_PC + pc_offset) % 65536)
  { s with reg := update_flags (updReg s.reg r0 r.1) r0, mem := r.2.1, input := r.2.2 }

/-- Transcribes `ldi(instr)`:
`reg[r0] = mem_read(mem_read(reg[R_PC] + pc_offset))`, then `update_flags`. -/
def ldi (s : Machine) (instr : Nat) : Machine :=
  let r0 := (instr >>> 9) &&& 0x7
  let pc_offset := sign_extend (instr &&& 0x1FF) 9
  let r1 := mem_read s.mem s.input ((s.reg R_PC + pc_offset) % 65536)
  let r2 := mem_read r1.2.1 r1.2.2 r1.1
  { s with reg := update_flags (updReg s.reg r0 r2.1) r0, mem := r2.2.1, input := r2.2.2 }

/-- Transcribes `ldr(instr)`: `reg[r0] = mem_read(reg[r1] + offset)` with
`offset = sign_extend(instr & 0x3F, 6)`, then `update_flags`. -/
def ldr (s : Machine) (instr : Nat) : Machine :=
  let r0 := (instr >>> 9) &&& 0x7
  let r1 := (instr >>> 6) &&& 0x7
  let offset := sign_extend (instr &&& 0x3F) 6
  let r := mem_read s.mem s.input ((s.reg r1 + offset) % 65536)
  { s with reg := update_flags (updReg s.reg r0 r.1) r0, mem := r.2.1, input := r.2.2 }

/-- Transcribes `lea(instr)`: `reg[r0] = reg[R_PC] + pc_offset` (16-bit
wraparound), then `update_flags`. -/
def lea (s : Machine) (instr : Nat) : Machine :=
  let r0 := (instr >>> 9) &&& 0x7
  let pc_offset := sign_extend (instr &&& 0x1FF) 9
  { s with reg := update_flags (updReg s.reg r0 ((s.reg R_PC + pc_offset) % 65536)) r0 }

/-- Transcribes `st(instr)` exactly as written in vm.c:
`mem_write(mem_read(reg[R_PC] + pc_offset), reg[r0])` — the store address is
the word read from `PC + offset`, an indirect store with the same body as
`sti`. -/
def st (s : Machine) (instr : Nat) : Machine :=
  let r0 := (instr >>> 9) &&& 0x7
  let pc_offset := sign_extend (instr &&& 0x1FF) 9
  let r := mem_read s.mem s.input ((s.reg R_PC + pc_offset) % 65536)
  { s with mem := mem_write r.2.1 r.1 (s.reg r0), input := r.2.2 }

/-- Transcribes `sti(instr)`:
`mem_write(mem_read(reg[R_PC] + pc_offset), reg[r0])`. -/
def sti (s : Machine) (instr : Nat) : Machine :=
  let r0 := (instr >>> 9) &&& 0x7
  let pc_offset := sign_extend (instr &&& 0x1FF) 9
  let r := mem_read s.mem s.input ((s.reg R_PC + pc_offset) % 65536)
  { s with mem := mem_write r.2.1 r.1 (s.reg r0), input := r.2.2 }

/-- Transcribes `str(instr)`: `mem_write(reg[r1] + pc_offset, reg[r0])` with
`pc_offset = sign_extend(instr & 0x3F, 6)`. -/
def str (s : Machine) (instr : Nat) : Machine :=
  let r0 := (instr >>> 9) &&& 0x7
  let r1 := (instr >>> 6) &&& 0x7
  let pc_offset := sign_extend (instr &&& 0x3F) 6
  { s with mem := mem_write s.mem ((s.reg r1 + pc_offset) % 65536) (s.reg r0) }

/-- Transcribes `bad(opcode)`: appends the bytes of
`printf("Unknown opcode!, %d\n", opcode)` to the output.  Note that in vm.c
this function is never called: the dispatch default case calls `abort()`
instead. -/
def bad (out : List Nat) (opcode : Nat) : List Nat :=
  out ++ ("Unknown opcode!, ".data.map Char.toNat)
      ++ ((Nat.toDigits 10 opcode).map Char.toNat) ++ [10]

/-- Transcribes `trap_getc()`: `reg[R_R0] = (uint16_t)getchar()`.  An empty
input models end-of-file, where `getchar()` returns `EOF = -1`, stored as
`0xFFFF`. -/
def trap_getc (s : Machine) : Machine :=
  match s.input with
  | b :: rest => { s with reg := updReg s.reg R_R0 b, input := rest }
  | [] => { s with reg := updReg s.reg R_R0 0xFFFF }

/-- Transcribes `trap_out()`: `putc((char)reg[R_R0], stdout)` — emits the low
byte of R0. -/
def trap_out (s : Machine) : Machine :=
  { s with out := s.out ++ [s.reg R_R0 &&& 0xFF] }

/-- Bytes of the prompt `printf("Enter a character: ")` in `trap_in`. -/
def prompt_bytes : List Nat := "Enter a character: ".data.map Char.toNat

/-- Transcribes `trap_in()`: prints the prompt, reads one character, echoes
it, and stores it in R0 (as `(uint16_t)c` where `c` is a signed `char`, hence
sign-extended when the byte is ≥ 0x80; end-of-file stores `0xFFFF` and echoes
the truncated byte `0xFF`). -/
def trap_in (s : Machine) : Machine :=
  match s.input with
  | b :: rest =>
      let c := b &&& 0xFF
      let w := if c < 0x80 then c else 0xFF00 ||| c
      { s with out := s.out ++ prompt_bytes ++ [c],
               reg := updReg s.reg R_R0 w, input := rest }
  | [] =>
      { s with out := s.out ++ prompt_bytes ++ [0xFF],
               reg := updReg s.reg R_R0 0xFFFF }

/-- The characters emitted by the loop of `trap_puts`: starting at `addr`,
emit the low byte of each word until a zero word.  The loop of vm.c walks a
raw pointer; `fuel` bounds the walk (the C loop past the end of the array is
undefined behaviour). -/
def puts_chars (mem : Nat → Nat) : Nat → Nat → List Nat
  | _, 0 => []
  | addr, Nat.succ f =>
      if mem addr = 0 then []
      else ((mem addr) &&& 0xFF) :: puts_chars mem (addr + 1) f

/-- Transcribes `trap_puts()`: walks memory from `reg[R_R0]` emitting
`(char)*c` for each nonzero word. -/
def trap_puts (s : Machine) : Machine :=
  { s with out := s.out ++ puts_chars s.mem (s.reg R_R0) 65536 }

/-- The characters emitted by the loop of `trap_putsp`: for each nonzero word
emit its low byte, then its high byte if that is nonzero. -/
def putsp_chars (mem : Nat → Nat) : Nat → Nat → List Nat
  | _, 0 => []
  | addr, Nat.succ f =>
      if mem addr = 0 then []
      else
        let char1 := (mem addr) &&& 0xFF
        let char2 := ((mem addr) >>> 8) &&& 0xFF
        ([char1] ++ (if char2 ≠ 0 then [char2] else []))
          ++ putsp_chars mem (addr + 1) f

/-- Transcribes `trap_putsp()`. -/
def trap_putsp (s : Machine) : Machine :=
  { s with out := s.out ++ putsp_chars s.mem (s.reg R_R0) 65536 }

/-- Bytes of `puts("HALT")`: the string plus the newline `puts` appends. -/
def halt_bytes : List Nat := ("HALT".data.map Char.toNat) ++ [10]

/-- Transcribes `trap_halt()`: prints `HALT`, clears `running`. -/
def trap_halt (s : Machine) : Machine :=
  { s with out := s.out ++ halt_bytes, running := false }

/-- Transcribes `trap(instr)`: a switch on `instr & 0xFF` over the six known
trap vectors.  The switch has no `default` case, so any other vector falls
through with no effect at all. -/
def trap (s : Machine) (instr : Nat) : Machine :=
  let v := instr &&& 0xFF
  if v = TRAP_GETC then trap_getc s
  else if v = TRAP_OUT then trap_out s
  else if v = TRAP_PUTS then trap_puts s
  else if v = TRAP_IN then trap_in s
  else if v = TRAP_PUTSP then trap_putsp s
  else if v = TRAP_HALT then trap_halt s
  else s

/-- Result of one trip through the dispatch switch in `main`: either a next
machine state, or the `abort()` reached through the
`case OP_RES: case OP_RTI: default:` branch (which kills the process,
leaving the state as it was, with nothing printed). -/
inductive StepResult where
  | ok : Machine → StepResult
  | aborted : Machine → StepResult

/-- The machine state carried by a `StepResult`. -/
def stateOf : StepResult → Machine
  | StepResult.ok s => s
  | StepResult.aborted s => s

/-- Whether a `StepResult` is the `abort()` outcome. -/
def isAborted : StepResult → Bool
  | StepResult.ok _ => false
  | StepResult.aborted _ => true

/-- Transcribes the dispatch switch of `main` on `op = instr >> 12`.  The
case order follows vm.c; note that `case OP_STI:` calls `str(instr)` (not
`sti`), exactly as in the source, and that `OP_RES`, `OP_RTI` and the default
fall to `abort()`. -/
def execute (s : Machine) (instr : Nat) : StepResult :=
  if instr >>> 12 = OP_ADD then StepResult.ok (LC3.add s instr)
  else if instr >>> 12 = OP_AND then StepResult.ok (LC3.and s instr)
  else if instr >>> 12 = OP_NOT then StepResult.ok (LC3.not s instr)
  else if instr >>> 12 = OP_BR then StepResult.ok (LC3.br s instr)
  else if instr >>> 12 = OP_JMP then StepResult.ok (LC3.jmp s instr)
  else if instr >>> 12 = OP_JSR then StepResult.ok (LC3.jsr s instr)
  else if instr >>> 12 = OP_LD then StepResult.ok (LC3.ld s instr)
  else if instr >>> 12 = OP_LDI then StepResult.ok (LC3.ldi s instr)
  else if instr >>> 12 = OP_LDR then StepResult.ok (LC3.ldr s instr)
  else if instr >>> 12 = OP_LEA then StepResult.ok (LC3.lea s instr)
  else if instr >>> 12 = OP_ST then StepResult.ok (LC3.st s instr)
  else if instr >>> 12 = OP_STI then StepResult.ok (LC3.str s instr)
  else if instr >>> 12 = OP_STR then StepResult.ok (LC3.str s instr)
  else if instr >>> 12 = OP_TRAP then StepResult.ok (LC3.trap s instr)
  else StepResult.aborted s

/-- The FETCH of the execution loop: `instr = mem_read(reg[R_PC]++)` — reads
memory at PC (with `mem_read`'s keyboard side effects) and increments PC with
16-bit wraparound.  Returns the fetched word and the post-fetch state. -/
def doFetch (s : Machine) : Nat × Machine :=
  let r := mem_read s.mem s.input (s.reg R_PC)
  (r.1, { s with mem := r.2.1, input := r.2.2,
                 reg := updReg s.reg R_PC ((s.reg R_PC + 1) % 65536) })

/-- The instruction word the loop would fetch in state `s`. -/
def fetchedInstr (s : Machine) : Nat := (doFetch s).1

/-- One fetch-decode-dispatch trip of the execution loop body. -/
def step (s : Machine) : StepResult :=
  execute (doFetch s).2 (fetchedInstr s)

/-- One iteration of `while(running)`: steps only while `running` is set. -/
def loopStep (s : Machine) : Machine :=
  if s.running then stateOf (step s) else s

/-- `n` iterations of the execution loop. -/
def runN (s : Machine) : Nat → Machine
  | 0 => s
  | Nat.succ n => loopStep (runN s n)

/-- The fixed start address set by `main`: `PC_START = 0x3000`. -/
def PC_START : Nat := 0x3000

/-- The machine state when the execution loop starts: the global arrays are
zero-initialized, `main` sets `reg[R_PC] = PC_START` and `running = 1`;
memory contents (after image loads) and pending input are parameters. -/
def initialMachine (mem0 : Nat → Nat) (inp : List Nat) : Machine :=
  { reg := updReg (fun _ => 0) R_PC PC_START, mem := mem0, input := inp,
    out := [], running := true }

/-- Whether the word's opcode is one of the seven handlers that call
`update_flags` (ADD, AND, NOT, LD, LDI, LDR, LEA). -/
def flagSetting (instr : Nat) : Bool :=
  (instr >>> 12 == OP_ADD) || (instr >>> 12 == OP_AND) ||
  (instr >>> 12 == OP_NOT) || (instr >>> 12 == OP_LD) ||
  (instr >>> 12 == OP_LDI) || (instr >>> 12 == OP_LDR) ||
  (instr >>> 12 == OP_LEA)

/-- A machine with zeroed registers and memory, no pending input, empty
output, and the loop running. -/
def zeroedMachine : Machine :=
  { reg := fun _ => 0, mem := fun _ => 0, input := [], out := [],
    running := true }

/-- State for exercising `and`: R1 = 0x0F0F, R2 = 0x00FF. -/
def c1m : Machine :=
  { zeroedMachine with reg := updReg (updReg (fun _ => 0) 1 0x0F0F) 2 0x00FF }

/-- State for exercising `st`: R0 = 0xABCD, PC = 0x3001 (already
incremented), and the word at PC + 1 = 0x3002 holding 0x4000. -/
def c2m : Machine :=
  { zeroedMachine with
      reg := updReg (updReg (fun _ => 0) 0 0xABCD) R_PC 0x3001,
      mem := fun a => if a = 0x3002 then 0x4000 else 0 }

/-- State for exercising STI dispatch: R0 = 0x1234, R1 = 0x5000,
PC = 0x3001, and the word at PC + 0x42 = 0x3043 holding 0x4000. -/
def c3m : Machine :=
  { zeroedMachine with
      reg := updReg (updReg (updReg (fun _ => 0) 0 0x1234) 1 0x5000) R_PC 0x3001,
      mem := fun a => if a = 0x3043 then 0x4000 else 0 }

/-- State for exercising `br`: COND = FL_POS, PC = 0x3001. -/
def c4m : Machine :=
  { zeroedMachine with
      reg := updReg (updReg (fun _ => 0) R_COND FL_POS) R_PC 0x3001 }

/-- State for exercising `trap`: PC = 0x3001, R7 = 0. -/
def c5m : Machine :=
  { zeroedMachine with reg := updReg (fun _ => 0) R_PC 0x3001 }

/-- State for exercising dispatch of a reserved opcode: the word at the
start address 0x3000 is 0xD000 (opcode 13 = OP_RES). -/
def c8m : Machine :=
  { zeroedMachine with
      reg := updReg (fun _ => 0) R_PC 0x3000,
      mem := fun a => if a = 0x3000 then 0xD000 else 0 }

/-- C1: the claim fails on the code — vm.c's `and` computes addition, not
bitwise conjunction.  With R1 = 0x0F0F and R2 = 0x00FF, register-mode
`AND R0,R1,R2` (0x5042) stores 0x100E = 0x0F0F + 0x00FF into R0 rather than
0x0F0F AND 0x00FF = 0x000F; in immediate mode `AND R0,R1,#0` (0x5060) stores
R1 itself rather than 0.  The condition flags are updated, but from the
additive result. -/
theorem c1_and_adds_instead_of_anding :
    (LC3.and c1m 0x5042).reg 0 = 0x100E ∧
    (LC3.and c1m 0x5042).reg 0 ≠ (0x0F0F &&& 0x00FF) ∧
    (LC3.and c1m 0x5060).reg 0 = 0x0F0F ∧
    (LC3.and c1m 0x5060).reg 0 ≠ (0x0F0F &&& sign_extend 0 5) ∧
    (LC3.and c1m 0x5042).reg R_COND = FL_POS :=
  ⟨rfl, by decide, rfl, by decide, rfl⟩

/-- C2: the claim fails on the code — executing ST (through the dispatch of
`main` and the `st` handler) does not write SR to `PC + offset`: with
PC = 0x3001, offset 1 and mem[0x3002] = 0x4000, the instruction 0x3001
(`ST R0, #1`) writes R0 = 0xABCD to address 0x4000 (the word read from
`PC + offset`), leaves mem[0x3002] = 0x4000 untouched, and leaves the
condition flags unchanged. -/
theorem c2_st_stores_indirectly :
    (stateOf (execute c2m 0x3001)).mem 0x4000 = 0xABCD ∧
    (stateOf (execute c2m 0x3001)).mem 0x3002 = 0x4000 ∧
    (stateOf (execute c2m 0x3001)).mem 0x3002 ≠ c2m.reg 0 ∧
    (stateOf (execute c2m 0x3001)).reg R_COND = c2m.reg R_COND :=
  ⟨rfl, rfl, by decide, rfl⟩

/-- C3: the claim fails on the code — `main` dispatches opcode OP_STI to
`str`, so executing STI stores through base register + offset6, not through
the word at `PC + offset`.  With R0 = 0x1234, R1 = 0x5000, PC = 0x3001,
mem[0x3043] = 0x4000, the instruction 0xB042 (STI with PCoffset9 = 0x42)
writes R0 to 0x5002 = R1 + 2 and leaves 0x4000 untouched; the unused `sti`
handler would have written R0 to 0x4000. -/
theorem c3_sti_dispatched_to_str :
    (stateOf (execute c3m 0xB042)).mem 0x5002 = 0x1234 ∧
    (stateOf (execute c3m 0xB042)).mem 0x4000 = 0 ∧
    (stateOf (execute c3m 0xB042)).mem 0x4000 ≠ c3m.reg 0 ∧
    (sti c3m 0xB042).mem 0x4000 = 0x1234 :=
  ⟨rfl, rfl, by decide, rfl⟩

/-- C4: the claim fails on the code — `br` extracts the offset with
`instr * 0x1FF` (multiplication) instead of `instr & 0x1FF`.  With
COND = FL_POS and PC = 0x3001, the matching branch 0x0201 (`BRp #1`) moves
PC to 0x3000 (offset 0xFFFF = sign_extend((0x0201 * 0x1FF) mod 2^16, 9)),
not to 0x3002 = PC + sign_extend(0x0201 & 0x1FF, 9); a non-matching branch
(0x0401, `BRz`) leaves PC unchanged. -/
theorem c4_br_offset_multiplied :
    (br c4m 0x0201).reg R_PC = 0x3000 ∧
    (br c4m 0x0201).reg R_PC ≠ (0x3001 + sign_extend (0x0201 &&& 0x1FF) 9) % 65536 ∧
    (br c4m 0x0401).reg R_PC = 0x3001 :=
  ⟨rfl, by decide, rfl⟩

/-- C5: the claim fails on the code — neither `main`'s TRAP case nor `trap`
stores PC into R7.  With PC = 0x3001 and R7 = 0, executing TRAP HALT
(0xF025) leaves R7 = 0 ≠ PC; the trap itself does dispatch (here clearing
`running`) and leaves the condition flags unchanged. -/
theorem c5_trap_does_not_save_r7 :
    (stateOf (execute c5m 0xF025)).reg R_R7 = 0 ∧
    (stateOf (execute c5m 0xF025)).reg R_R7 ≠ c5m.reg R_PC ∧
    (stateOf (execute c5m 0xF025)).running = false ∧
    (stateOf (execute c5m 0xF025)).reg R_COND = c5m.reg R_COND :=
  ⟨rfl, by decide, rfl, rfl⟩

/-- C6: the claim fails on the code — the array is
`uint16_t memory[UINT16_MAX]`, i.e. 65535 cells, so the 16-bit address
0xFFFF is out of bounds (while 0xFFFE is the last valid cell). -/
theorem c6_addr_ffff_out_of_bounds :
    mem_index_ok 0xFFFE = true ∧ mem_index_ok 0xFFFF = false ∧
    (0xFFFF : Nat) < 65536 := by
  decide

/-- C7 counterexample: a TRAP with vector 0x26 (outside 0x20..0x25) is a
silent no-op — the machine state is completely unchanged, `running` stays
true and nothing is printed, contradicting the claimed invalid-trap fault. -/
theorem c7_counterexample :
    trap zeroedMachine 0xF026 = zeroedMachine ∧
    (trap zeroedMachine 0xF026).running = true ∧
    (trap zeroedMachine 0xF026).out = [] :=
  ⟨rfl, rfl, rfl⟩

/-- C7 (amended): a TRAP whose 8-bit vector is outside
{0x20, 0x21, 0x22, 0x23, 0x24, 0x25} falls through the vector switch and
leaves the machine state entirely unchanged: no fault, no halt, no
diagnostic. -/
theorem c7_invalid_trap_is_noop (s : Machine) (instr : Nat)
    (h20 : instr &&& 0xFF ≠ TRAP_GETC) (h21 : instr &&& 0xFF ≠ TRAP_OUT)
    (h22 : instr &&& 0xFF ≠ TRAP_PUTS) (h23 : instr &&& 0xFF ≠ TRAP_IN)
    (h24 : instr &&& 0xFF ≠ TRAP_PUTSP) (h25 : instr &&& 0xFF ≠ TRAP_HALT) :
    trap s instr = s := by
  simp [trap, h20, h21, h22, h23, h24, h25]

/-- C7 witness: the amended statement at the concrete vector 0x00. -/
theorem c7_witness : trap zeroedMachine 0xFF00 = zeroedMachine :=
  c7_invalid_trap_is_noop zeroedMachine 0xFF00 (by decide) (by decide)
    (by decide) (by decide) (by decide) (by decide)

/-- C8 counterexample: fetching the word 0xD000 (opcode 13, OP_RES) at
PC = 0x3000 stops the loop through `abort()`, but surfaces no diagnostic at
all: the output stays empty, whereas the diagnostic of `bad` (which `main`
never calls) would be nonempty. -/
theorem c8_counterexample :
    isAborted (step c8m) = true ∧
    (stateOf (step c8m)).out = [] ∧
    fetchedInstr c8m >>> 12 = OP_RES ∧
    bad [] (fetchedInstr c8m >>> 12) ≠ [] :=
  ⟨rfl, rfl, rfl, by decide⟩

/-- C8 (amended): dispatching an instruction whose opcode is 13 (OP_RES) or
8 (OP_RTI) reaches `abort()`: the loop stops and the instruction is not
silently ignored, but the machine state — in particular the output — is left
as it was, with no diagnostic identifying the opcode (the `bad` helper is
never invoked). -/
theorem c8_bad_opcode_aborts_silently (s : Machine) (instr : Nat)
    (h : instr >>> 12 = OP_RES ∨ instr >>> 12 = OP_RTI) :
    execute s instr = StepResult.aborted s := by
  rcases h with h | h <;>
    simp [execute, h, OP_ADD, OP_AND, OP_NOT, OP_BR, OP_JMP, OP_JSR, OP_LD,
          OP_LDI, OP_LDR, OP_LEA, OP_ST, OP_STI, OP_STR, OP_TRAP, OP_RES,
          OP_RTI]

/-- C8 witness: the amended statement at the concrete word 0xD000. -/
theorem c8_witness :
    execute zeroedMachine 0xD000 = StepResult.aborted zeroedMachine :=
  c8_bad_opcode_aborts_silently zeroedMachine 0xD000 (Or.inl (by decide))

/-- C9: the claim fails on the code — since `MR_KBDR = MR_KBSR = 0xFE00`,
the data byte overwrites the `1 << 15` status word in the same cell, so a
read at the keyboard-status address with byte 0x61 pending returns 0x61
(bit 15 clear) and leaves the cell holding 0x61, not `1 << 15`.  The
not-ready path behaves as claimed (status cleared to 0, 0 returned). -/
theorem c9_kbsr_read_status_clobbered :
    (mem_read (fun _ => 0) [0x61] MR_KBSR).1 = 0x61 ∧
    ((mem_read (fun _ => 0) [0x61] MR_KBSR).1) >>> 15 = 0 ∧
    (mem_read (fun _ => 0) [0x61] MR_KBSR).2.1 MR_KBSR = 0x61 ∧
    (mem_read (fun _ => 0) [0x61] MR_KBSR).2.1 MR_KBSR ≠ 1 <<< 15 ∧
    MR_KBDR = MR_KBSR ∧
    (mem_read (fun _ => 0) [] MR_KBSR).1 = 0 :=
  ⟨rfl, rfl, rfl, by decide, rfl, rfl⟩

/-- Unfolding of `runN` at a successor. -/
theorem runN_succ (s : Machine) (n : Nat) :
    runN s (n + 1) = loopStep (runN s n) := rfl

/-- The fetch leaves the condition register untouched. -/
theorem doFetch_reg_cond (s : Machine) :
    (doFetch s).2.reg R_COND = s.reg R_COND := by
  simp [doFetch, updReg, R_PC, R_COND]

/-- The fetch advances PC by exactly one, with 16-bit wraparound. -/
theorem doFetch_reg_pc (s : Machine) :
    (doFetch s).2.reg R_PC = (s.reg R_PC + 1) % 65536 := by
  simp [doFetch, updReg, R_PC]

/-- The `br` handler never writes the condition register. -/
theorem br_reg_cond (s : Machine) (instr : Nat) :
    (br s instr).reg R_COND = s.reg R_COND := by
  simp only [br]
  split_ifs <;> simp [updReg, R_PC, R_COND]

/-- The `jmp` handler never writes the condition register. -/
theorem jmp_reg_cond (s : Machine) (instr : Nat) :
    (jmp s instr).reg R_COND = s.reg R_COND := by
  simp [jmp, updReg, R_PC, R_COND]

/-- The `jsr` handler never writes the condition register. -/
theorem jsr_reg_cond (s : Machine) (instr : Nat) :
    (jsr s instr).reg R_COND = s.reg R_COND := by
  simp only [jsr]
  split_ifs <;> simp [updReg, R_PC, R_COND, R_R7]

/-- `trap_getc` writes only R0 and the input, not the condition register. -/
theorem trap_getc_reg_cond (s : Machine) :
    (trap_getc s).reg R_COND = s.reg R_COND := by
  unfold trap_getc
  cases s.input <;> simp [updReg, R_R0, R_COND]

/-- `trap_in` writes only R0, output and input, not the condition register. -/
theorem trap_in_reg_cond (s : Machine) :
    (trap_in s).reg R_COND = s.reg R_COND := by
  unfold trap_in
  cases s.input <;> simp [updReg, R_R0, R_COND]

/-- No trap routine writes the condition register. -/
theorem trap_reg_cond (s : Machine) (instr : Nat) :
    (trap s instr).reg R_COND = s.reg R_COND := by
  simp only [trap]
  split_ifs <;>
    simp [trap_getc_reg_cond, trap_in_reg_cond, trap_out, trap_puts,
          trap_putsp, trap_halt]

/-- Dispatching any instruction that is not one of the seven flag-setting
opcodes leaves the condition register unchanged. -/
theorem execute_reg_cond (s : Machine) (instr : Nat)
    (h : flagSetting instr = false) :
    (stateOf (execute s instr)).reg R_COND = s.reg R_COND := by
  have hADD : instr >>> 12 ≠ OP_ADD := fun he => by simp [flagSetting, he] at h
  have hAND : instr >>> 12 ≠ OP_AND := fun he => by simp [flagSetting, he] at h
  have hNOT : instr >>> 12 ≠ OP_NOT := fun he => by simp [flagSetting, he] at h
  have hLD : instr >>> 12 ≠ OP_LD := fun he => by simp [flagSetting, he] at h
  have hLDI : instr >>> 12 ≠ OP_LDI := fun he => by simp [flagSetting, he] at h
  have hLDR : instr >>> 12 ≠ OP_LDR := fun he => by simp [flagSetting, he] at h
  have hLEA : instr >>> 12 ≠ OP_LEA := fun he => by simp [flagSetting, he] at h
  unfold execute
  rw [if_neg hADD, if_neg hAND, if_neg hNOT]
  by_cases hBR : instr >>> 12 = OP_BR
  · rw [if_pos hBR]; simpa [stateOf] using br_reg_cond s instr
  rw [if_neg hBR]
  by_cases hJMP : instr >>> 12 = OP_JMP
  · rw [if_pos hJMP]; simpa [stateOf] using jmp_reg_cond s instr
  rw [if_neg hJMP]
  by_cases hJSR : instr >>> 12 = OP_JSR
  · rw [if_pos hJSR]; simpa [stateOf] using jsr_reg_cond s instr
  rw [if_neg hJSR, if_neg hLD, if_neg hLDI, if_neg hLDR, if_neg hLEA]
  by_cases hST : instr >>> 12 = OP_ST
  · rw [if_pos hST]; rfl
  rw [if_neg hST]
  by_cases hSTI : instr >>> 12 = OP_STI
  · rw [if_pos hSTI]; rfl
  rw [if_neg hSTI]
  by_cases hSTR : instr >>> 12 = OP_STR
  · rw [if_pos hSTR]; rfl
  rw [if_neg hSTR]
  by_cases hTRAP : instr >>> 12 = OP_TRAP
  · rw [if_pos hTRAP]; simpa [stateOf] using trap_reg_cond s instr
  rw [if_neg hTRAP]
  rfl

/-- A loop trip whose fetched instruction is not flag-setting leaves the
condition register unchanged. -/
theorem step_reg_cond (s : Machine)
    (h : flagSetting (fetchedInstr s) = false) :
    (stateOf (step s)).reg R_COND = s.reg R_COND := by
  unfold step
  rw [execute_reg_cond _ _ h]
  exact doFetch_reg_cond s

/-- When the condition register is 0, the branch condition
`cond_flag & reg[R_COND]` is 0 and `br` returns the state unchanged. -/
theorem br_cond_zero (s : Machine) (instr : Nat) (h : s.reg R_COND = 0) :
    br s instr = s := by
  simp [br, h]

/-- When the condition register is 0, a loop trip that fetches a BR word
produces exactly the post-fetch state: the handler does nothing. -/
theorem step_br (s : Machine) (hc : s.reg R_COND = 0)
    (hop : fetchedInstr s >>> 12 = OP_BR) :
    step s = StepResult.ok ((doFetch s).2) := by
  have hc2 : (doFetch s).2.reg R_COND = 0 := by
    rw [doFetch_reg_cond]; exact hc
  unfold step execute
  simp [hop, OP_BR, OP_ADD, OP_AND, OP_NOT, br_cond_zero _ _ hc2]

/-- The condition register stays 0 along any run of the loop in which every
executed instruction is non-flag-setting. -/
theorem runN_cond_zero (s0 : Machine) (hs : s0.reg R_COND = 0) :
    ∀ n, (∀ k, k < n → (runN s0 k).running = true →
          flagSetting (fetchedInstr (runN s0 k)) = false) →
    (runN s0 n).reg R_COND = 0 := by
  intro n
  induction n with
  | zero => intro _; exact hs
  | succ m ih =>
    intro h
    have hm := ih (fun k hk => h k (Nat.lt_succ_of_lt hk))
    rw [runN_succ]
    unfold loopStep
    split_ifs with hr
    · rw [step_reg_cond _ (h m (Nat.lt_succ_self m) hr)]
      exact hm
    · exact hm

/-- C10: at loop start the condition register is the zero-initialized value
0, which equals none of FL_POS = 1, FL_ZRO = 2, FL_NEG = 4; along any run in
which no executed instruction is flag-setting (no ADD, AND, NOT, LD, LDI,
LDR or LEA), the condition register stays 0, and every executed BR leaves PC
at exactly the post-fetch value (PC advances by one per BR, the handler
changing nothing). -/
theorem c10_cond_zero_br_noop (mem0 : Nat → Nat) (inp : List Nat) (n : Nat)
    (h : ∀ k, k < n → (runN (initialMachine mem0 inp) k).running = true →
         flagSetting (fetchedInstr (runN (initialMachine mem0 inp) k)) = false) :
    (initialMachine mem0 inp).reg R_COND = 0 ∧
    ((0 : Nat) ≠ FL_POS ∧ (0 : Nat) ≠ FL_ZRO ∧ (0 : Nat) ≠ FL_NEG) ∧
    (runN (initialMachine mem0 inp) n).reg R_COND = 0 ∧
    (∀ k, k < n → (runN (initialMachine mem0 inp) k).running = true →
       fetchedInstr (runN (initialMachine mem0 inp) k) >>> 12 = OP_BR →
       (runN (initialMachine mem0 inp) (k + 1)).reg R_PC
         = ((runN (initialMachine mem0 inp) k).reg R_PC + 1) % 65536) := by
  have hinit : (initialMachine mem0 inp).reg R_COND = 0 := by
    simp [initialMachine, updReg, R_PC, R_COND]
  refine ⟨hinit, by decide, runN_cond_zero _ hinit n h, ?_⟩
  intro k hk hr hbr
  have hck : (runN (initialMachine mem0 inp) k).reg R_COND = 0 :=
    runN_cond_zero _ hinit k (fun j hj => h j (Nat.lt_trans hj hk))
  have hstep := step_br (runN (initialMachine mem0 inp) k) hck hbr
  rw [runN_succ]
  unfold loopStep
  rw [if_pos hr, hstep]
  simpa [stateOf] using doFetch_reg_pc (runN (initialMachine mem0 inp) k)

/-- C10 witness: one loop trip from the zeroed start state (all memory 0, so
the fetched word 0x0000 is a BR): the condition register is still 0. -/
theorem c10_witness :
    (runN (initialMachine (fun _ => 0) []) 1).reg R_COND = 0 :=
  (c10_cond_zero_br_noop (fun _ => 0) [] 1 (by
    intro k hk hr
    have hk0 : k = 0 := Nat.lt_one_iff.mp hk
    subst hk0
    rfl)).2.2.1

end LC3
